import Mathlib

/-!
# Verification of the implot binding layer (src/lib.rs, src/plot.rs, src/plot_elements.rs)

Shallow embedding of the Rust binding code.  Native (`sys::ImPlot_*`) calls are
modelled as records of the arguments the binding passes; a `plot` method that
can decline to call the native layer returns an `Option` of such a record
(`none` = no native call), and a method that can panic returns `Except String`.
`f64`/`f32` values are modelled as `ℚ` (the code only stores and compares
them), machine integers as `ℕ`/`ℤ` with explicit wrap-around where the Rust
`as` cast truncates.
-/

namespace Implot

/-- Rust `usize as i32` / `u32 as i32` cast: truncation to the low 32 bits,
reinterpreted as a signed value. -/
def i32ofNat (n : ℕ) : ℤ :=
  if n % 2 ^ 32 < 2 ^ 31 then (n % 2 ^ 32 : ℤ) else (n % 2 ^ 32 : ℤ) - 2 ^ 32

/-- Rust `i32 as usize` cast on a 64-bit platform: sign-extension to 64 bits,
reinterpreted as an unsigned value. -/
def usizeOfInt (z : ℤ) : ℕ := (z % 2 ^ 64).toNat

/-- `size_of::<f64>() as i32`, the stride passed by all double-pointer plot calls. -/
def f64Stride : ℤ := 8

-- --- Two-sequence drawing primitives (plot_elements.rs) ---------------------

/-- Arguments of `sys::ImPlot_PlotLine_doublePtrdoublePtr`. -/
structure LineDrawCall where
  label : String
  xs : List ℚ
  ys : List ℚ
  count : ℤ
  flags : ℤ
  offset : ℤ
  stride : ℤ
  deriving DecidableEq, Repr

/-- `PlotLine` from plot_elements.rs (label stored as a `CString`, flags). -/
structure PlotLine where
  label : String
  flags : ℤ
  deriving DecidableEq, Repr

/-- `PlotLine::plot`: early-returns when `x.len().min(y.len()) == 0`, else
calls the native line-draw function with count `min(len) as i32`. -/
def PlotLine.plot (self : PlotLine) (x y : List ℚ) : Option LineDrawCall :=
  if min x.length y.length = 0 then none
  else some
    { label := self.label, xs := x, ys := y
      count := i32ofNat (min x.length y.length)
      flags := self.flags, offset := 0, stride := f64Stride }

/-- `PlotStairs` from plot_elements.rs. -/
structure PlotStairs where
  label : String
  flags : ℤ
  deriving DecidableEq, Repr

/-- `PlotStairs::plot`: same early-return and count computation as
`PlotLine::plot`, targeting `sys::ImPlot_PlotStairs_doublePtrdoublePtr`. -/
def PlotStairs.plot (self : PlotStairs) (x y : List ℚ) : Option LineDrawCall :=
  if min x.length y.length = 0 then none
  else some
    { label := self.label, xs := x, ys := y
      count := i32ofNat (min x.length y.length)
      flags := self.flags, offset := 0, stride := f64Stride }

/-- `PlotScatter` from plot_elements.rs. -/
structure PlotScatter where
  label : String
  flags : ℤ
  deriving DecidableEq, Repr

/-- `PlotScatter::plot`: same early-return and count computation as
`PlotLine::plot`, targeting `sys::ImPlot_PlotScatter_doublePtrdoublePtr`. -/
def PlotScatter.plot (self : PlotScatter) (x y : List ℚ) : Option LineDrawCall :=
  if min x.length y.length = 0 then none
  else some
    { label := self.label, xs := x, ys := y
      count := i32ofNat (min x.length y.length)
      flags := self.flags, offset := 0, stride := f64Stride }

/-- `ImPlotBarsFlags_Horizontal` / `ImPlotStemsFlags_Horizontal` (1 << 10),
from the generated sys bindings (vendored ImPlot header). -/
def horizontalFlag : ℤ := 1024

/-- Arguments of `sys::ImPlot_PlotBars_doublePtrdoublePtr`. -/
structure BarsDrawCall where
  label : String
  axisPositions : List ℚ
  barValues : List ℚ
  count : ℤ
  barWidth : ℚ
  flags : ℤ
  offset : ℤ
  stride : ℤ
  deriving DecidableEq, Repr

/-- `PlotBars` from plot_elements.rs. -/
structure PlotBars where
  label : String
  bar_width : ℚ
  deriving DecidableEq, Repr

/-- `PlotBars::plot`: computes `number_of_points` as the minimum length,
early-returns when it is zero, else calls the native bars-draw function. -/
def PlotBars.plot (self : PlotBars) (axisPositions barValues : List ℚ)
    (horizontal : Bool) : Option BarsDrawCall :=
  let numberOfPoints := min axisPositions.length barValues.length
  if numberOfPoints = 0 then none
  else some
    { label := self.label
      axisPositions := axisPositions, barValues := barValues
      count := i32ofNat numberOfPoints
      barWidth := self.bar_width
      flags := if horizontal then horizontalFlag else 0
      offset := 0, stride := f64Stride }

/-- Arguments of `sys::ImPlot_PlotStems_doublePtrdoublePtr`. -/
structure StemsDrawCall where
  label : String
  axisPositions : List ℚ
  stemValues : List ℚ
  count : ℤ
  referenceY : ℚ
  flags : ℤ
  offset : ℤ
  stride : ℤ
  deriving DecidableEq, Repr

/-- `PlotStems` from plot_elements.rs. -/
structure PlotStems where
  label : String
  reference_y : ℚ
  deriving DecidableEq, Repr

/-- `PlotStems::plot`: same minimum-length count and zero early-return as
`PlotBars::plot`, targeting `sys::ImPlot_PlotStems_doublePtrdoublePtr`. -/
def PlotStems.plot (self : PlotStems) (axisPositions stemValues : List ℚ)
    (horizontal : Bool) : Option StemsDrawCall :=
  let numberOfPoints := min axisPositions.length stemValues.length
  if numberOfPoints = 0 then none
  else some
    { label := self.label
      axisPositions := axisPositions, stemValues := stemValues
      count := i32ofNat numberOfPoints
      referenceY := self.reference_y
      flags := if horizontal then horizontalFlag else 0
      offset := 0, stride := f64Stride }

/-- Arguments of `sys::ImPlot_PlotShaded_doublePtrdoublePtrdoublePtr`. -/
structure ShadedDrawCall where
  label : String
  xs : List ℚ
  ys1 : List ℚ
  ys2 : List ℚ
  count : ℤ
  flags : ℤ
  offset : ℤ
  stride : ℤ
  deriving DecidableEq, Repr

/-- `PlotShaded` from plot_elements.rs. -/
structure PlotShaded where
  label : String
  flags : ℤ
  deriving DecidableEq, Repr

/-- `PlotShaded::plot`: early-returns when any of the three inputs is empty,
else calls the native shaded-draw function with the three-way minimum. -/
def PlotShaded.plot (self : PlotShaded) (xs ys1 ys2 : List ℚ) :
    Option ShadedDrawCall :=
  if xs.isEmpty || ys1.isEmpty || ys2.isEmpty then none
  else some
    { label := self.label, xs := xs, ys1 := ys1, ys2 := ys2
      count := i32ofNat (min (min xs.length ys1.length) ys2.length)
      flags := self.flags, offset := 0, stride := f64Stride }

-- --- Pie chart --------------------------------------------------------------

/-- Arguments of `sys::ImPlot_PlotPieChart_doublePtrStr`. -/
structure PieChartDrawCall where
  labels : List String
  values : List ℚ
  count : ℤ
  x : ℚ
  y : ℚ
  radius : ℚ
  fmt : String
  angle0 : ℚ
  flags : ℤ
  deriving DecidableEq, Repr

/-- `PlotPieChart` from plot_elements.rs. -/
structure PlotPieChart where
  label_fmt : Option String
  flags : ℤ
  deriving DecidableEq, Repr

/-- Whether a Rust string's bytes contain a NUL byte (the U+0000 character in
UTF-8), which makes `CString::new(s)` return an error. -/
def containsNulByte (s : String) : Bool :=
  s.toList.any fun c => c = Char.ofNat 0

/-- `PlotPieChart::plot`: first converts every label with
`CString::new(s).unwrap()`, which panics (`Except.error`) on any label
containing a NUL byte, before any native call; otherwise computes `count` as
the minimum of the label and value counts and calls the native pie-chart
function unconditionally — in contrast with the line/bars family there is no
zero-count early return. -/
def PlotPieChart.plot (self : PlotPieChart) (labels : List String)
    (values : List ℚ) (x y radius : ℚ) (angle0 : Option ℚ) :
    Except String PieChartDrawCall :=
  if labels.any containsNulByte then
    .error "called Result::unwrap() on an Err value: NulError"
  else
    .ok
      { labels := labels, values := values
        count := i32ofNat (min labels.length values.length)
        x := x, y := y, radius := radius
        fmt := self.label_fmt.getD "%.1f"
        angle0 := angle0.getD 90
        flags := self.flags }

-- --- Histogram --------------------------------------------------------------

/-- Modelled from the spec: the `ImPlotBin_` enum of the generated sys crate
(not under src) assigns the automatic binning methods negative sentinel
discriminants, as the spec's "documented sentinel encoding (negative enum
value vs. positive count)" requires; the vendored ImPlot header uses
Sqrt = -1, Sturges = -2, Rice = -3, Scott = -4. -/
inductive PlotBinMethod where
  | sqrt
  | sturges
  | rice
  | scott
  deriving DecidableEq, Repr

/-- Discriminant of the `ImPlotBin_` enum entry (`auto as sys::ImPlotBin`). -/
def PlotBinMethod.toInt : PlotBinMethod → ℤ
  | .sqrt => -1
  | .sturges => -2
  | .rice => -3
  | .scott => -4

/-- `PlotBin` from plot_elements.rs: automatic method or manual `u32` count. -/
inductive PlotBin where
  | auto (method : PlotBinMethod)
  | manual (bins : ℕ)
  deriving DecidableEq, Repr

/-- The `bins` argument passed to the native call: `Auto` casts the enum
discriminant, `Manual` casts the `u32` count with `as sys::ImPlotBin` (i32). -/
def PlotBin.encode : PlotBin → ℤ
  | .auto method => method.toInt
  | .manual bins => i32ofNat bins

/-- Arguments of `sys::ImPlot_PlotHistogram_doublePtr`. -/
structure HistogramDrawCall where
  label : String
  values : List ℚ
  count : ℤ
  bins : ℤ
  barScale : ℚ
  rangeMin : ℚ
  rangeMax : ℚ
  flags : ℤ
  deriving DecidableEq, Repr

/-- `PlotHistogram` from plot_elements.rs. -/
structure PlotHistogram where
  label : String
  flags : ℤ
  deriving DecidableEq, Repr

/-- `PlotHistogram::plot`: defaults `bar_scale` to 1.0 and `range` to
`(0, 0)`, encodes the bin specification, and calls the native histogram
function unconditionally (no empty-input early return). -/
def PlotHistogram.plot (self : PlotHistogram) (values : List ℚ)
    (bins : PlotBin) (barScale : Option ℚ) (range : Option (ℚ × ℚ)) :
    Option HistogramDrawCall :=
  some
    { label := self.label, values := values
      count := i32ofNat values.length
      bins := bins.encode
      barScale := barScale.getD 1
      rangeMin := (range.getD (0, 0)).1
      rangeMax := (range.getD (0, 0)).2
      flags := self.flags }

-- --- Heatmap ----------------------------------------------------------------

/-- `ImPlotHeatmapFlags_ColMajor` (1 << 10) from the generated sys bindings. -/
def colMajorFlag : ℤ := 1024

/-- Arguments of `sys::ImPlot_PlotHeatmap_doublePtr`. -/
structure HeatmapDrawCall where
  label : String
  values : List ℚ
  rows : ℤ
  cols : ℤ
  scaleMin : ℚ
  scaleMax : ℚ
  labelFormat : Option String
  lowerLeft : ℚ × ℚ
  upperRight : ℚ × ℚ
  flags : ℤ
  deriving DecidableEq, Repr

/-- `PlotHeatmap` from plot_elements.rs. -/
structure PlotHeatmap where
  label : String
  scale_range : Option (ℚ × ℚ)
  label_format : Option String
  drawarea_lower_left : ℚ × ℚ
  drawarea_upper_right : ℚ × ℚ
  deriving DecidableEq, Repr

/-- `PlotHeatmap::new`: auto scale, `"%.1f"` label format, unit draw area. -/
def PlotHeatmap.new (label : String) : PlotHeatmap :=
  { label := label, scale_range := none, label_format := some "%.1f"
    drawarea_lower_left := (0, 0), drawarea_upper_right := (1, 1) }

/-- `PlotHeatmap.with_scale`. -/
def PlotHeatmap.with_scale (self : PlotHeatmap) (scaleMin scaleMax : ℚ) :
    PlotHeatmap :=
  { self with scale_range := some (scaleMin, scaleMax) }

/-- The auto-scale scan of `PlotHeatmap::plot`: `min_seen`/`max_seen` start at
`values[0]` and are folded with `min`/`max` over the whole buffer. Defined on
a head/tail split because the source indexes `values[0]` before iterating. -/
def heatmapAutoScale (v : ℚ) (rest : List ℚ) : ℚ × ℚ :=
  (v :: rest).foldl (fun acc value => (min acc.1 value, max acc.2 value)) (v, v)

/-- `PlotHeatmap::plot`: when no scale range is set, computes it with
`heatmapAutoScale` — indexing `values[0]`, which panics (`Except.error`) on an
empty buffer before any native call — then calls the native heatmap
function. -/
def PlotHeatmap.plot (self : PlotHeatmap) (values : List ℚ)
    (numberOfRows numberOfCols : ℕ) (colMajor : Bool) :
    Except String HeatmapDrawCall :=
  match self.scale_range, values with
  | none, [] => .error "index out of bounds: the len is 0 but the index is 0"
  | none, v :: rest => .ok
    { label := self.label, values := v :: rest
      rows := i32ofNat numberOfRows, cols := i32ofNat numberOfCols
      scaleMin := (heatmapAutoScale v rest).1
      scaleMax := (heatmapAutoScale v rest).2
      labelFormat := self.label_format
      lowerLeft := self.drawarea_lower_left
      upperRight := self.drawarea_upper_right
      flags := if colMajor then colMajorFlag else 0 }
  | some range, values => .ok
    { label := self.label, values := values
      rows := i32ofNat numberOfRows, cols := i32ofNat numberOfCols
      scaleMin := range.1, scaleMax := range.2
      labelFormat := self.label_format
      lowerLeft := self.drawarea_lower_left
      upperRight := self.drawarea_upper_right
      flags := if colMajor then colMajorFlag else 0 }

-- --- plot.rs: the Plot descriptor and its begin/end protocol ----------------

/-- Number of axes, `sys::ImAxis_::COUNT` in the generated bindings
(X1, X2, X3, Y1, Y2, Y3). -/
def NUMBER_OF_AXES : ℕ := 6

/-- `AxisChoice` (`sys::ImAxis_`): axis indices from the vendored ImPlot
header (X1 = 0 … Y3 = 5). -/
inductive AxisChoice where
  | x1
  | x2
  | x3
  | y1
  | y2
  | y3
  deriving DecidableEq, Repr

/-- The integer index of an axis (`axis_choice as usize`). -/
def AxisChoice.toFin : AxisChoice → Fin 6
  | .x1 => 0
  | .x2 => 1
  | .x3 => 2
  | .y1 => 3
  | .y2 => 4
  | .y3 => 5

/-- `AxisLimitSpecification` from plot.rs; the `Linked` variant carries the
current value of the shared `Rc<RefCell<ImPlotRange>>` cell. -/
inductive AxisLimitSpecification where
  | single (range : ℚ × ℚ) (cond : ℤ)
  | linked (range : ℚ × ℚ)
  deriving DecidableEq, Repr

/-- `AxisFormat` from plot.rs: a fixed format string or a boxed callback
(the callback body is modelled separately by `axis_format_callback`). -/
inductive AxisFormat where
  | formatString (s : String)
  | callback
  deriving DecidableEq, Repr

/-- One native setup/begin call issued by `Plot::begin`, in issue order. -/
inductive BeginCall where
  | beginPlot (title : String) (sizeX sizeY : ℚ) (flags : ℤ)
  | setupAxis (axis : Fin 6) (label : Option String) (flags : ℤ)
  | setupAxisScale (axis : Fin 6) (scale : ℤ)
  | setupAxisLimitsConstraints (axis : Fin 6) (vmin vmax : ℚ)
  | setupAxisZoomConstraints (axis : Fin 6) (zmin zmax : ℚ)
  | setupAxisFormatStr (axis : Fin 6) (fmt : String)
  | setupAxisFormatCallback (axis : Fin 6)
  | setupAxisLimits (axis : Fin 6) (lmin lmax : ℚ) (cond : ℤ)
  | setupAxisLinks (axis : Fin 6)
  | setupAxisTicks (axis : Fin 6) (positions : List ℚ) (count : ℤ)
      (labels : Option (List String)) (keepDefault : Bool)
  | setupLegend (location : ℤ) (flags : ℤ)
  deriving DecidableEq, Repr

/-- Whether a native call is the `ImPlot_BeginPlot` call itself. -/
def BeginCall.isBegin : BeginCall → Bool
  | .beginPlot _ _ _ _ => true
  | _ => false

/-- Whether a native call is the ticks-setup call (`ImPlot_SetupAxisTicks`). -/
def BeginCall.isTicks : BeginCall → Bool
  | .setupAxisTicks _ _ _ _ _ => true
  | _ => false

/-- `Plot` from plot.rs: the builder-style plot descriptor. -/
structure Plot where
  title : String
  size : ℚ × ℚ
  labels : Fin 6 → Option String
  axis_enabled : Fin 6 → Bool
  axis_limits : Fin 6 → Option AxisLimitSpecification
  axis_limits_constraints : Fin 6 → Option (ℚ × ℚ)
  axis_zoom_constraints : Fin 6 → Option (ℚ × ℚ)
  axis_tick_positions : Fin 6 → Option (List ℚ)
  axis_tick_labels : Fin 6 → Option (List String)
  axis_scales : Fin 6 → ℤ
  axis_format : Fin 6 → Option AxisFormat
  show_axis_default_ticks : Fin 6 → Bool
  legend_configuration : Option (ℤ × ℤ)
  plot_flags : ℤ
  axis_flags : Fin 6 → ℤ

/-- `AxisScale::Linear` discriminant of `sys::ImPlotScale_`. -/
def linearScale : ℤ := 0

/-- `Plot::new`: defaults, with the X1 and Y1 axes enabled. -/
def Plot.new (title : String) : Plot :=
  { title := title
    size := (400, 400)
    labels := fun _ => none
    axis_enabled := Function.update (Function.update (fun _ => false)
      AxisChoice.x1.toFin true) AxisChoice.y1.toFin true
    axis_limits := fun _ => none
    axis_limits_constraints := fun _ => none
    axis_zoom_constraints := fun _ => none
    axis_tick_positions := fun _ => none
    axis_tick_labels := fun _ => none
    axis_scales := fun _ => linearScale
    axis_format := fun _ => none
    show_axis_default_ticks := fun _ => false
    legend_configuration := none
    plot_flags := 0
    axis_flags := fun _ => 0 }

/-- `Plot::axis_label`: enables the axis and stores the label (empty string
clears it). -/
def Plot.axis_label (self : Plot) (label : String) (axisChoice : AxisChoice) :
    Plot :=
  let axisIndex := axisChoice.toFin
  { self with
    axis_enabled := Function.update self.axis_enabled axisIndex true
    labels := Function.update self.labels axisIndex
      (if label ≠ "" then some label else none) }

/-- `Plot::x_label`. -/
def Plot.x_label (self : Plot) (label : String) : Plot :=
  self.axis_label label .x1

/-- `Plot::axis_ticks_with_labels`: enables the axis, stores the positions and
the parallel label strings, and records the `show_default` flag. -/
def Plot.axis_ticks_with_labels (self : Plot) (axisChoice : AxisChoice)
    (tickLabels : List (ℚ × String)) (showDefault : Bool) : Plot :=
  let axisIndex := axisChoice.toFin
  { self with
    axis_enabled := Function.update self.axis_enabled axisIndex true
    axis_tick_positions := Function.update self.axis_tick_positions axisIndex
      (some (tickLabels.map Prod.fst))
    axis_tick_labels := Function.update self.axis_tick_labels axisIndex
      (some (tickLabels.map Prod.snd))
    show_axis_default_ticks :=
      Function.update self.show_axis_default_ticks axisIndex showDefault }

/-- `Plot::axis_limits` (the builder method; named apart from the field of
the same name): enables the axis and stores one-shot limits. -/
def Plot.set_axis_limits (self : Plot) (limits : ℚ × ℚ)
    (axisChoice : AxisChoice) (condition : ℤ) : Plot :=
  let axisIndex := axisChoice.toFin
  { self with
    axis_enabled := Function.update self.axis_enabled axisIndex true
    axis_limits := Function.update self.axis_limits axisIndex
      (some (.single limits condition)) }

/-- `Plot::with_legend_location`. -/
def Plot.with_legend_location (self : Plot) (location flags : ℤ) : Plot :=
  { self with legend_configuration := some (location, flags) }

/-- The per-axis setup block inside `Plot::begin`'s `should_render` branch:
`SetupAxis`, `SetupAxisScale`, then the optional constraint and format
calls, skipped entirely for disabled axes. -/
def Plot.axisSetupCalls (p : Plot) (axis : Fin 6) : List BeginCall :=
  if p.axis_enabled axis then
    [.setupAxis axis (p.labels axis) (p.axis_flags axis),
     .setupAxisScale axis (p.axis_scales axis)]
    ++ (match p.axis_limits_constraints axis with
        | some minmax => [.setupAxisLimitsConstraints axis minmax.1 minmax.2]
        | none => [])
    ++ (match p.axis_zoom_constraints axis with
        | some minmax => [.setupAxisZoomConstraints axis minmax.1 minmax.2]
        | none => [])
    ++ (match p.axis_format axis with
        | some (.formatString s) => [.setupAxisFormatStr axis s]
        | some .callback => [.setupAxisFormatCallback axis]
        | none => [])
  else []

/-- `Plot::maybe_set_axis_limits`: per axis, a `SetupAxisLimits` call for
direct limits or a `SetupAxisLinks` call for linked limits. -/
def Plot.maybe_set_axis_limits (p : Plot) : List BeginCall :=
  (List.finRange 6).flatMap fun axis =>
    match p.axis_limits axis with
    | none => []
    | some (.single range cond) => [.setupAxisLimits axis range.1 range.2 cond]
    | some (.linked _) => [.setupAxisLinks axis]

/-- `Plot::maybe_set_tick_labels`: per axis with a non-empty position vector,
one `SetupAxisTicks` call carrying the positions, their count (`len as i32`),
the optional label strings (null pointer when absent), and the keep-default
flag. -/
def Plot.maybe_set_tick_labels (p : Plot) : List BeginCall :=
  (List.finRange 6).flatMap fun axis =>
    match p.axis_tick_positions axis with
    | some positions =>
      if positions.isEmpty then []
      else [.setupAxisTicks axis positions (i32ofNat positions.length)
              (p.axis_tick_labels axis) (p.show_axis_default_ticks axis)]
    | none => []

/-- The legend block of `Plot::begin`: one `SetupLegend` call when a legend
configuration was set. -/
def Plot.legendCalls (p : Plot) : List BeginCall :=
  match p.legend_configuration with
  | some config => [.setupLegend config.1 config.2]
  | none => []

/-- `PlotToken` from plot.rs: `contextIsNull` models whether the stored
`*const Context` pointer is null (it is nulled by `end()`). -/
structure PlotToken where
  contextIsNull : Bool
  plot_title : String
  deriving DecidableEq, Repr

/-- `Plot::begin`: calls `ImPlot_BeginPlot` first; `shouldRender` models its
return value. When it returns true, the per-axis setup, the limit calls, the
tick calls and the legend call follow, and a `PlotToken` holding the non-null
context pointer is returned; otherwise nothing else happens and no token is
returned. The first component is the native call trace in issue order. -/
def Plot.begin (p : Plot) (shouldRender : Bool) :
    List BeginCall × Option PlotToken :=
  (BeginCall.beginPlot p.title p.size.1 p.size.2 p.plot_flags ::
    (if shouldRender then
      ((List.finRange 6).flatMap p.axisSetupCalls)
      ++ p.maybe_set_axis_limits ++ p.maybe_set_tick_labels ++ p.legendCalls
    else []),
   if shouldRender then
     some { contextIsNull := false, plot_title := p.title }
   else none)

/-- `PlotToken::end`: nulls the context pointer (and then calls
`ImPlot_EndPlot`). -/
def PlotToken.endToken (t : PlotToken) : PlotToken :=
  { t with contextIsNull := true }

/-- `impl Drop for PlotToken`: returns whether the drop panics — it does
exactly when the context pointer is still non-null and the thread is not
already panicking. -/
def PlotToken.dropPanics (t : PlotToken) (threadPanicking : Bool) : Bool :=
  !t.contextIsNull && !threadPanicking

/-- `Plot::axis_format_callback` from plot.rs: the `extern "C"` bridge that
copies the callback's string `s` (as bytes) into the native buffer of
capacity `size`. `size.checked_sub(1).unwrap()` panics only on `i32`
overflow (`size = -2^31`), modelled as `none`; otherwise `size - 1` is cast
`as usize` (sign extension on a 64-bit platform), `count` bytes are copied,
a null terminator is written at index `count`, and `count + 1` is returned.
The result is the byte content written to the buffer and the return value. -/
def axis_format_callback (s : List ℕ) (size : ℤ) : Option (List ℕ × ℤ) :=
  if size = -(2 ^ 31) then none
  else
    let count := min (usizeOfInt (size - 1)) s.length
    some (s.take count ++ [0], (count : ℤ) + 1)

-- --- lib.rs: style stack tokens ---------------------------------------------

/-- `StyleColorToken` from lib.rs. -/
structure StyleColorToken where
  was_popped : Bool
  deriving DecidableEq, Repr

/-- `push_style_color`: pushes natively and returns a fresh token. -/
def push_style_color (_element : ℤ) (_red _green _blue _alpha : ℚ) :
    StyleColorToken :=
  { was_popped := false }

/-- `StyleColorToken::pop`: panics (`Except.error`) when already popped, else
marks the token popped and issues `ImPlot_PopStyleColor(1)`; the second
component of the result is the count passed to the native pop call. -/
def StyleColorToken.pop (t : StyleColorToken) :
    Except String (StyleColorToken × ℤ) :=
  if t.was_popped then .error "Attempted to pop a style color token twice."
  else .ok ({ was_popped := true }, 1)

/-- `StyleColorToken` has no `Drop` implementation in lib.rs, so letting it go
out of scope runs the trivial default destructor: the drop never panics. -/
def StyleColorToken.dropPanics (_t : StyleColorToken)
    (_threadPanicking : Bool) : Bool :=
  false

/-- `StyleVarToken` from lib.rs. -/
structure StyleVarToken where
  was_popped : Bool
  deriving DecidableEq, Repr

/-- `push_style_var_f32` (likewise `_i32`, `_imvec2`): pushes natively and
returns a fresh token. -/
def push_style_var_f32 (_element : ℤ) (_value : ℚ) : StyleVarToken :=
  { was_popped := false }

/-- `StyleVarToken::pop`: panics (`Except.error`) when already popped, else
marks the token popped and issues `ImPlot_PopStyleVar(1)`. -/
def StyleVarToken.pop (t : StyleVarToken) :
    Except String (StyleVarToken × ℤ) :=
  if t.was_popped then .error "Attempted to pop a style var token twice."
  else .ok ({ was_popped := true }, 1)

/-- `StyleVarToken` has no `Drop` implementation in lib.rs either: the drop
never panics. -/
def StyleVarToken.dropPanics (_t : StyleVarToken)
    (_threadPanicking : Bool) : Bool :=
  false

/-- Whether, in a native call trace, every configuration call precedes every
`BeginPlot` call: after dropping the leading non-begin calls, only begin
calls may remain. -/
def configPrecedesBegin (tr : List BeginCall) : Bool :=
  (tr.dropWhile fun c => !c.isBegin).all fun c => c.isBegin

-- ============================ Theorems ======================================

/-- The `usize as i32` cast is the identity below `2^31`. -/
theorem i32ofNat_eq_of_lt {n : ℕ} (h : n < 2 ^ 31) : i32ofNat n = n := by
  have hc : n % 2 ^ 32 < 2 ^ 31 := by omega
  simp only [i32ofNat, if_pos hc]
  omega

/-- The pairwise min/max fold splits into a `min` fold and a `max` fold. -/
theorem foldl_minmax_split (l : List ℚ) (a b : ℚ) :
    l.foldl (fun acc value => (min acc.1 value, max acc.2 value)) (a, b) =
      (l.foldl min a, l.foldl max b) := by
  induction l generalizing a b with
  | nil => rfl
  | cons c l ih => simpa using ih (min a c) (max b c)

/-- A `min` fold is a lower bound of its seed and all folded elements. -/
theorem foldl_min_le (l : List ℚ) (a : ℚ) :
    l.foldl min a ≤ a ∧ ∀ x ∈ l, l.foldl min a ≤ x := by
  induction l generalizing a with
  | nil => simp
  | cons c l ih =>
    obtain ⟨h1, h2⟩ := ih (min a c)
    refine ⟨le_trans h1 (min_le_left a c), ?_⟩
    intro x hx
    rcases List.mem_cons.mp hx with hxc | hx
    · rw [hxc]
      exact le_trans h1 (min_le_right a c)
    · exact h2 x hx

/-- A `min` fold returns its seed or one of the folded elements. -/
theorem foldl_min_mem (l : List ℚ) (a : ℚ) :
    l.foldl min a = a ∨ l.foldl min a ∈ l := by
  induction l generalizing a with
  | nil => simp
  | cons c l ih =>
    rcases ih (min a c) with h | h
    · rcases min_choice a c with hm | hm
      · exact Or.inl (by rw [List.foldl_cons, h, hm])
      · refine Or.inr ?_
        rw [List.foldl_cons, h, hm]
        exact List.mem_cons_self c l
    · exact Or.inr (List.mem_cons_of_mem c h)

/-- A `max` fold is an upper bound of its seed and all folded elements. -/
theorem le_foldl_max (l : List ℚ) (b : ℚ) :
    b ≤ l.foldl max b ∧ ∀ x ∈ l, x ≤ l.foldl max b := by
  induction l generalizing b with
  | nil => simp
  | cons c l ih =>
    obtain ⟨h1, h2⟩ := ih (max b c)
    refine ⟨le_trans (le_max_left b c) h1, ?_⟩
    intro x hx
    rcases List.mem_cons.mp hx with hxc | hx
    · rw [hxc]
      exact le_trans (le_max_right b c) h1
    · exact h2 x hx

/-- A `max` fold returns its seed or one of the folded elements. -/
theorem foldl_max_mem (l : List ℚ) (b : ℚ) :
    l.foldl max b = b ∨ l.foldl max b ∈ l := by
  induction l generalizing b with
  | nil => simp
  | cons c l ih =>
    rcases ih (max b c) with h | h
    · rcases max_choice b c with hm | hm
      · exact Or.inl (by rw [List.foldl_cons, h, hm])
      · refine Or.inr ?_
        rw [List.foldl_cons, h, hm]
        exact List.mem_cons_self c l
    · exact Or.inr (List.mem_cons_of_mem c h)

/-- C1 counterexample: for two slices of length `2^31` each, the claim "the
count passed to the native draw call equals the minimum of the two slice
lengths" fails on `PlotLine::plot` — the minimum is `2^31`, but the `as i32`
cast wraps it to `-2^31`, which is what the native call receives. -/
theorem C1_counterexample :
    ((PlotLine.mk "line" 0).plot (List.replicate (2 ^ 31) (0 : ℚ))
        (List.replicate (2 ^ 31) (0 : ℚ))).map LineDrawCall.count =
      some (-(2 ^ 31)) ∧
    min (List.replicate (2 ^ 31) (0 : ℚ)).length
        (List.replicate (2 ^ 31) (0 : ℚ)).length = 2 ^ 31 ∧
    (-(2 ^ 31) : ℤ) ≠ ((2 ^ 31 : ℕ) : ℤ) := by
  have hlen : (List.replicate (2 ^ 31) (0 : ℚ)).length = 2 ^ 31 :=
    List.length_replicate _ _
  have hwrap : i32ofNat (2 ^ 31) = -(2 ^ 31) := by
    unfold i32ofNat
    norm_num
  refine ⟨?_, ?_, by norm_num⟩
  · unfold PlotLine.plot
    rw [hlen, min_self, if_neg (by norm_num)]
    show some (i32ofNat (2 ^ 31)) = some (-(2 ^ 31))
    rw [hwrap]
  · rw [hlen, min_self]

/-- C1 (amended): for the line, stairs, scatter, bars and stems primitives,
whenever the minimum of the two slice lengths fits in an `i32` (is below
`2^31`), the count passed to the native draw call equals that minimum, and
when the minimum is nonzero the native call is actually made; in particular
for inputs of length 5 and 3 the effective plotted count is 3. -/
theorem C1_min_count (line : PlotLine) (stairs : PlotStairs)
    (scatter : PlotScatter) (bars : PlotBars) (stems : PlotStems)
    (x y : List ℚ) (horizontal : Bool)
    (hfit : min x.length y.length < 2 ^ 31) :
    (∀ c ∈ line.plot x y, c.count = (min x.length y.length : ℤ)) ∧
    (∀ c ∈ stairs.plot x y, c.count = (min x.length y.length : ℤ)) ∧
    (∀ c ∈ scatter.plot x y, c.count = (min x.length y.length : ℤ)) ∧
    (∀ c ∈ bars.plot x y horizontal,
      c.count = (min x.length y.length : ℤ)) ∧
    (∀ c ∈ stems.plot x y horizontal,
      c.count = (min x.length y.length : ℤ)) ∧
    (min x.length y.length ≠ 0 →
      (line.plot x y).isSome = true ∧ (stairs.plot x y).isSome = true ∧
      (scatter.plot x y).isSome = true ∧
      (bars.plot x y horizontal).isSome = true ∧
      (stems.plot x y horizontal).isSome = true) := by
  by_cases h0 : min x.length y.length = 0
  · simp [PlotLine.plot, PlotStairs.plot, PlotScatter.plot, PlotBars.plot,
      PlotStems.plot, h0]
  · simp [PlotLine.plot, PlotStairs.plot, PlotScatter.plot, PlotBars.plot,
      PlotStems.plot, h0, i32ofNat_eq_of_lt hfit]

/-- C1 witness: lengths 5 and 3 satisfy the `i32` bound, and the count passed
to the native call is 3 for the line and bars primitives. -/
theorem C1_witness :
    min ([0, 1, 2, 3, 4] : List ℚ).length ([5, 6, 7] : List ℚ).length
      < 2 ^ 31 ∧
    (∀ c ∈ (PlotLine.mk "l" 0).plot [0, 1, 2, 3, 4] [5, 6, 7],
      c.count = (min ([0, 1, 2, 3, 4] : List ℚ).length
        ([5, 6, 7] : List ℚ).length : ℤ)) ∧
    ((PlotLine.mk "l" 0).plot [0, 1, 2, 3, 4] [5, 6, 7]).map
      LineDrawCall.count = some 3 ∧
    ((PlotBars.mk "b" 1).plot [0, 1, 2, 3, 4] [5, 6, 7] false).map
      BarsDrawCall.count = some 3 := by
  refine ⟨by norm_num, ?_, by decide, by decide⟩
  exact (C1_min_count (PlotLine.mk "l" 0) (PlotStairs.mk "s" 0)
    (PlotScatter.mk "c" 0) (PlotBars.mk "b" 1) (PlotStems.mk "t" 0)
    [0, 1, 2, 3, 4] [5, 6, 7] false (by norm_num)).1

/-- C2 counterexample: the claim "whenever the minimum length among its input
sequences is zero, the plot call performs no native draw call" fails for
`PlotPieChart::plot` and `PlotHistogram::plot`: on empty inputs (where no
label exists, so no label-conversion panic is possible) both still issue
their native call, with count 0. -/
theorem C2_counterexample :
    ((PlotPieChart.mk none 0).plot [] [] 0 0 1 none).map
      PieChartDrawCall.count = .ok 0 ∧
    ((PlotHistogram.mk "h" 0).plot [] (.manual 1) none none).map
      HistogramDrawCall.count = some 0 := by
  exact ⟨rfl, by decide⟩

/-- C2 (amended): for the line, stairs, scatter, bars and stems primitives a
zero minimum input length means no native call is made (a silent no-op), and
likewise for the shaded primitive with the minimum taken over its three input
sequences; `PlotPieChart::plot` (once past its label-conversion panic, which
requires every label to be free of NUL bytes) and `PlotHistogram::plot` are
exceptions that issue their native call even on empty input. -/
theorem C2_empty_no_call (line : PlotLine) (stairs : PlotStairs)
    (scatter : PlotScatter) (bars : PlotBars) (stems : PlotStems)
    (x y : List ℚ) (horizontal : Bool)
    (h0 : min x.length y.length = 0) :
    line.plot x y = none ∧ stairs.plot x y = none ∧
    scatter.plot x y = none ∧ bars.plot x y horizontal = none ∧
    stems.plot x y horizontal = none ∧
    (∀ (shaded : PlotShaded) (xs ys1 ys2 : List ℚ),
      min (min xs.length ys1.length) ys2.length = 0 →
      shaded.plot xs ys1 ys2 = none) ∧
    (∀ (pie : PlotPieChart) (labels : List String) (values : List ℚ)
      (px py r : ℚ) (a : Option ℚ),
      labels.any containsNulByte = false →
      ∃ call, pie.plot labels values px py r a = .ok call) ∧
    (∀ (hist : PlotHistogram) (values : List ℚ) (bins : PlotBin)
      (bs : Option ℚ) (rg : Option (ℚ × ℚ)),
      (hist.plot values bins bs rg).isSome = true) := by
  have hxy : x.length = 0 ∨ y.length = 0 := by omega
  have hx : x = [] ∨ y = [] := by
    rcases hxy with hx | hy
    · exact Or.inl (List.length_eq_zero.mp hx)
    · exact Or.inr (List.length_eq_zero.mp hy)
  have hfive : line.plot x y = none ∧ stairs.plot x y = none ∧
      scatter.plot x y = none ∧ bars.plot x y horizontal = none ∧
      stems.plot x y horizontal = none := by
    rcases hx with hx | hy
    · subst hx
      simp [PlotLine.plot, PlotStairs.plot, PlotScatter.plot, PlotBars.plot,
        PlotStems.plot]
    · subst hy
      simp [PlotLine.plot, PlotStairs.plot, PlotScatter.plot, PlotBars.plot,
        PlotStems.plot]
  refine ⟨hfive.1, hfive.2.1, hfive.2.2.1, hfive.2.2.2.1, hfive.2.2.2.2,
    ?_, ?_, ?_⟩
  · intro shaded xs ys1 ys2 h3
    have h3' : xs.length = 0 ∨ ys1.length = 0 ∨ ys2.length = 0 := by omega
    have hempty : xs = [] ∨ ys1 = [] ∨ ys2 = [] := by
      rcases h3' with h | h | h
      · exact Or.inl (List.length_eq_zero.mp h)
      · exact Or.inr (Or.inl (List.length_eq_zero.mp h))
      · exact Or.inr (Or.inr (List.length_eq_zero.mp h))
    rcases hempty with h | h | h <;> subst h <;> simp [PlotShaded.plot]
  · intro pie labels values px py r a hn
    unfold PlotPieChart.plot
    rw [hn]
    exact ⟨_, rfl⟩
  · intro hist values bins bs rg
    rfl

/-- C2 witness: with an empty x-sequence and a one-element y-sequence the
minimum length is zero and none of the six min-respecting primitives issues a
native call; the pie chart and histogram still do. -/
theorem C2_witness :
    min ([] : List ℚ).length ([1] : List ℚ).length = 0 ∧
    ((PlotLine.mk "l" 0).plot [] [1] = none ∧
     (PlotStairs.mk "s" 0).plot [] [1] = none ∧
     (PlotScatter.mk "c" 0).plot [] [1] = none ∧
     (PlotBars.mk "b" 1).plot [] [1] false = none ∧
     (PlotStems.mk "t" 0).plot [] [1] false = none ∧
     (∀ (shaded : PlotShaded) (xs ys1 ys2 : List ℚ),
       min (min xs.length ys1.length) ys2.length = 0 →
       shaded.plot xs ys1 ys2 = none) ∧
     (∀ (pie : PlotPieChart) (labels : List String) (values : List ℚ)
       (px py r : ℚ) (a : Option ℚ),
       labels.any containsNulByte = false →
       ∃ call, pie.plot labels values px py r a = .ok call) ∧
     (∀ (hist : PlotHistogram) (values : List ℚ) (bins : PlotBin)
       (bs : Option ℚ) (rg : Option (ℚ × ℚ)),
       (hist.plot values bins bs rg).isSome = true)) :=
  ⟨rfl, C2_empty_no_call (PlotLine.mk "l" 0) (PlotStairs.mk "s" 0)
    (PlotScatter.mk "c" 0) (PlotBars.mk "b" 1) (PlotStems.mk "t" 0)
    [] [1] false rfl⟩

/-- C3: a `PlotToken` returned by `Plot::begin`, dropped on a thread that is
not already panicking, panics; if the thread is already unwinding it stays
silent, and after `end()` has nulled the context pointer, dropping the token
raises no failure whatever the unwinding state — so the fail-loud path fires
exactly once per leaked scope. -/
theorem C3_token_drop (p : Plot) (t : PlotToken)
    (h : (p.begin true).2 = some t) :
    t.dropPanics false = true ∧ t.dropPanics true = false ∧
    ∀ b, t.endToken.dropPanics b = false := by
  have ht : t = { contextIsNull := false, plot_title := p.title } := by
    have := h.symm
    simpa [Plot.begin] using this
  subst ht
  refine ⟨rfl, rfl, ?_⟩
  intro b
  cases b <;> rfl

/-- C3 witness: the token of a freshly begun plot panics when dropped without
`end()`, and no longer panics once ended. -/
theorem C3_witness :
    ((Plot.new "t").begin true).2 =
      some { contextIsNull := false, plot_title := "t" } ∧
    (PlotToken.dropPanics { contextIsNull := false, plot_title := "t" }
        false = true ∧
     PlotToken.dropPanics { contextIsNull := false, plot_title := "t" }
        true = false ∧
     ∀ b, (PlotToken.endToken
        { contextIsNull := false, plot_title := "t" }).dropPanics b = false) :=
  ⟨rfl, C3_token_drop (Plot.new "t") _ rfl⟩

/-- C4 counterexample: a style-color token (and likewise a style-var token)
that was pushed and never popped does not panic when it goes out of scope in
a non-unwinding context — neither token type implements `Drop`, so the claim
that they trigger the fail-loud path is false. -/
theorem C4_counterexample :
    ¬ (StyleColorToken.dropPanics { was_popped := false } false = true ∧
       StyleVarToken.dropPanics { was_popped := false } false = true) := by
  decide

/-- C4 (amended): letting a style-color or style-var token go out of scope
without `pop()` is a silent no-op — the drop never panics, in any unwinding
state, because neither token type implements `Drop`. The only fail-loud path
is the double-pop panic inside `pop()` itself, which the move semantics of
`pop(self)` make unreachable: a fresh pushed token pops successfully exactly
once (passing count 1 to the native pop), and only an already-popped token
value would panic. -/
theorem C4_style_token_drop :
    (∀ (t : StyleColorToken) (b : Bool), t.dropPanics b = false) ∧
    (∀ (t : StyleVarToken) (b : Bool), t.dropPanics b = false) ∧
    (∀ (e : ℤ) (r g bl a : ℚ),
      (push_style_color e r g bl a).pop = .ok ({ was_popped := true }, 1)) ∧
    (∀ (e : ℤ) (v : ℚ),
      (push_style_var_f32 e v).pop = .ok ({ was_popped := true }, 1)) ∧
    StyleColorToken.pop { was_popped := true } =
      .error "Attempted to pop a style color token twice." ∧
    StyleVarToken.pop { was_popped := true } =
      .error "Attempted to pop a style var token twice." := by
  refine ⟨fun t b => rfl, fun t b => rfl, fun e r g bl a => rfl,
    fun e v => rfl, rfl, rfl⟩

/-- C5: when no explicit scale range was set, `PlotHeatmap::plot` on a
non-empty buffer issues the native call with a scale range that is exactly
the least and greatest element of the buffer, obtained by the single linear
`min`/`max` scan. -/
theorem C5_heatmap_auto_scale (self : PlotHeatmap) (v : ℚ) (rest : List ℚ)
    (rows cols : ℕ) (colMajor : Bool) (hscale : self.scale_range = none) :
    ∃ call, self.plot (v :: rest) rows cols colMajor = .ok call ∧
      IsLeast {x | x ∈ v :: rest} call.scaleMin ∧
      IsGreatest {x | x ∈ v :: rest} call.scaleMax := by
  have hplot : self.plot (v :: rest) rows cols colMajor = .ok
      { label := self.label, values := v :: rest
        rows := i32ofNat rows, cols := i32ofNat cols
        scaleMin := (heatmapAutoScale v rest).1
        scaleMax := (heatmapAutoScale v rest).2
        labelFormat := self.label_format
        lowerLeft := self.drawarea_lower_left
        upperRight := self.drawarea_upper_right
        flags := if colMajor then colMajorFlag else 0 } := by
    unfold PlotHeatmap.plot
    rw [hscale]
  have hsplit : heatmapAutoScale v rest =
      ((v :: rest).foldl min v, (v :: rest).foldl max v) := by
    unfold heatmapAutoScale
    exact foldl_minmax_split (v :: rest) v v
  refine ⟨_, hplot, ⟨?_, ?_⟩, ⟨?_, ?_⟩⟩
  · show (heatmapAutoScale v rest).1 ∈ {x | x ∈ v :: rest}
    rw [hsplit]
    rcases foldl_min_mem (v :: rest) v with h | h
    · rw [h]
      exact List.mem_cons_self v rest
    · exact h
  · intro x hx
    show (heatmapAutoScale v rest).1 ≤ x
    rw [hsplit]
    exact (foldl_min_le (v :: rest) v).2 x hx
  · show (heatmapAutoScale v rest).2 ∈ {x | x ∈ v :: rest}
    rw [hsplit]
    rcases foldl_max_mem (v :: rest) v with h | h
    · rw [h]
      exact List.mem_cons_self v rest
    · exact h
  · intro x hx
    show x ≤ (heatmapAutoScale v rest).2
    rw [hsplit]
    exact (le_foldl_max (v :: rest) v).2 x hx

/-- C5 witness: the heatmap default (no explicit scale) on the buffer
`[1, 5, -2, 3]` issues the native call with scale range `(-2, 5)`. -/
theorem C5_witness :
    (PlotHeatmap.new "h").scale_range = none ∧
    (∃ call, (PlotHeatmap.new "h").plot (1 :: [5, -2, 3]) 2 2 false =
        .ok call ∧
      IsLeast {x | x ∈ (1 : ℚ) :: [5, -2, 3]} call.scaleMin ∧
      IsGreatest {x | x ∈ (1 : ℚ) :: [5, -2, 3]} call.scaleMax) ∧
    ((PlotHeatmap.new "h").plot [1, 5, -2, 3] 2 2 false).map
      (fun c => (c.scaleMin, c.scaleMax)) = .ok (-2, 5) :=
  ⟨rfl, C5_heatmap_auto_scale (PlotHeatmap.new "h") 1 [5, -2, 3] 2 2 false rfl,
    by rfl⟩

/-- No call produced by the per-axis setup block is the `BeginPlot` call. -/
theorem axisSetupCalls_not_begin (p : Plot) (ax : Fin 6) :
    ∀ c ∈ p.axisSetupCalls ax, c.isBegin = false := by
  intro c hc
  unfold Plot.axisSetupCalls at hc
  split at hc
  · rcases List.mem_append.mp hc with hc | hc
    · rcases List.mem_append.mp hc with hc | hc
      · rcases List.mem_append.mp hc with hc | hc
        · simp only [List.mem_cons, List.not_mem_nil, or_false] at hc
          rcases hc with rfl | rfl <;> rfl
        · split at hc
          · simp only [List.mem_cons, List.not_mem_nil, or_false] at hc
            subst hc
            rfl
          · simp at hc
      · split at hc
        · simp only [List.mem_cons, List.not_mem_nil, or_false] at hc
          subst hc
          rfl
        · simp at hc
    · split at hc
      · simp only [List.mem_cons, List.not_mem_nil, or_false] at hc
        subst hc
        rfl
      · simp only [List.mem_cons, List.not_mem_nil, or_false] at hc
        subst hc
        rfl
      · simp at hc
  · simp at hc

/-- No call produced by the axis-limit block is the `BeginPlot` call. -/
theorem maybe_set_axis_limits_not_begin (p : Plot) :
    ∀ c ∈ p.maybe_set_axis_limits, c.isBegin = false := by
  intro c hc
  unfold Plot.maybe_set_axis_limits at hc
  rcases List.mem_flatMap.mp hc with ⟨ax, -, hc⟩
  split at hc
  · simp at hc
  · simp only [List.mem_cons, List.not_mem_nil, or_false] at hc
    subst hc
    rfl
  · simp only [List.mem_cons, List.not_mem_nil, or_false] at hc
    subst hc
    rfl

/-- No call produced by the tick-label block is the `BeginPlot` call. -/
theorem maybe_set_tick_labels_not_begin (p : Plot) :
    ∀ c ∈ p.maybe_set_tick_labels, c.isBegin = false := by
  intro c hc
  unfold Plot.maybe_set_tick_labels at hc
  rcases List.mem_flatMap.mp hc with ⟨ax, -, hc⟩
  split at hc
  · split at hc
    · simp at hc
    · simp only [List.mem_cons, List.not_mem_nil, or_false] at hc
      subst hc
      rfl
  · simp at hc

/-- No call produced by the legend block is the `BeginPlot` call. -/
theorem legendCalls_not_begin (p : Plot) :
    ∀ c ∈ p.legendCalls, c.isBegin = false := by
  intro c hc
  unfold Plot.legendCalls at hc
  split at hc
  · simp only [List.mem_cons, List.not_mem_nil, or_false] at hc
    subst hc
    rfl
  · simp at hc

/-- C6 counterexample: for the concrete descriptor `Plot::new("t").x_label("x")`
rendered successfully, the native call trace does not place the configuration
calls before the `BeginPlot` call — `BeginPlot` comes first and the axis
configuration follows it, so the claimed "configure first, then begin" order
is false. -/
theorem C6_counterexample :
    configPrecedesBegin (((Plot.new "t").x_label "x").begin true).1 = false := by
  rfl

/-- C6 (amended): `Plot::begin` issues the native `BeginPlot` call first (with
the title, size and plot flags); no configuration call precedes it. Only when
the native library reports that the plot should render do the configuration
calls follow, namely the per-axis setup, then the axis limits, then the tick
labels, then the legend placement, and only then is a token returned; when it
reports not to render, no configuration call is made and no token is
returned. -/
theorem C6_begin_order (p : Plot) (b : Bool) :
    (p.begin b).1.head? =
      some (.beginPlot p.title p.size.1 p.size.2 p.plot_flags) ∧
    (∀ c ∈ (p.begin b).1.drop 1, c.isBegin = false) ∧
    (p.begin b).1.drop 1 =
      (if b then ((List.finRange 6).flatMap p.axisSetupCalls)
        ++ p.maybe_set_axis_limits ++ p.maybe_set_tick_labels ++ p.legendCalls
      else []) ∧
    (p.begin b).2.isSome = b := by
  refine ⟨rfl, ?_, rfl, by cases b <;> rfl⟩
  intro c hc
  cases b
  · simp [Plot.begin] at hc
  · have hc' : c ∈ ((List.finRange 6).flatMap p.axisSetupCalls)
        ++ p.maybe_set_axis_limits ++ p.maybe_set_tick_labels
        ++ p.legendCalls := hc
    rcases List.mem_append.mp hc' with hd | hd
    · rcases List.mem_append.mp hd with hd | hd
      · rcases List.mem_append.mp hd with hd | hd
        · rcases List.mem_flatMap.mp hd with ⟨ax, -, hd⟩
          exact axisSetupCalls_not_begin p ax c hd
        · exact maybe_set_axis_limits_not_begin p c hd
      · exact maybe_set_tick_labels_not_begin p c hd
    · exact legendCalls_not_begin p c hd

/-- C6 witness: for a concrete descriptor with a label and legend set, begun
with a successful render, `BeginPlot` heads the trace, nothing after it is a
begin call, the tail is exactly the four configuration phases in order, and a
token is produced. -/
theorem C6_witness :
    ((((Plot.new "t").x_label "x").with_legend_location 0 0).begin
        true).1.head? =
      some (.beginPlot "t" 400 400 0) ∧
    (∀ c ∈ ((((Plot.new "t").x_label "x").with_legend_location 0 0).begin
        true).1.drop 1, c.isBegin = false) ∧
    ((((Plot.new "t").x_label "x").with_legend_location 0 0).begin
        true).1.drop 1 =
      (if true then
        ((List.finRange 6).flatMap
          (((Plot.new "t").x_label "x").with_legend_location 0 0).axisSetupCalls)
        ++ (((Plot.new "t").x_label "x").with_legend_location
            0 0).maybe_set_axis_limits
        ++ (((Plot.new "t").x_label "x").with_legend_location
            0 0).maybe_set_tick_labels
        ++ (((Plot.new "t").x_label "x").with_legend_location 0 0).legendCalls
      else []) ∧
    ((((Plot.new "t").x_label "x").with_legend_location 0 0).begin
        true).2.isSome = true :=
  C6_begin_order (((Plot.new "t").x_label "x").with_legend_location 0 0) true

/-- C7: for the descriptor configured with `axis_ticks_with_labels` on the X1
axis with positions `[0, 1, 2]`, labels `["a", "b", "c"]` and
`show_default = false`, the begin trace contains exactly one native
ticks-setup call, carrying exactly those three positions (count 3), exactly
those three labels, and the keep-default flag `false`, so the default
auto-generated ticks are suppressed. -/
theorem C7_ticks_passed :
    (((Plot.new "plot").axis_ticks_with_labels .x1
        [(0, "a"), (1, "b"), (2, "c")] false).begin true).1.filter
      BeginCall.isTicks =
    [.setupAxisTicks AxisChoice.x1.toFin [0, 1, 2] 3
      (some ["a", "b", "c"]) false] := by
  rfl

/-- C8 counterexample: the `Manual(n)` bin count is passed through the
wrapping `as i32` cast, so for the valid `u32` value `n = 2^31` the argument
received by the native histogram call is `-2^31`, not the positive count
`2^31` the claim requires for every `n`. -/
theorem C8_counterexample :
    PlotBin.encode (.manual (2 ^ 31)) = -(2 ^ 31) ∧
    ((-(2 ^ 31) : ℤ) ≠ ((2 ^ 31 : ℕ) : ℤ)) ∧
    ((PlotHistogram.mk "h" 0).plot [0] (.manual (2 ^ 31)) none none).map
      HistogramDrawCall.bins = some (-(2 ^ 31)) := by
  have henc : PlotBin.encode (.manual (2 ^ 31)) = -(2 ^ 31) := by
    unfold PlotBin.encode i32ofNat
    norm_num
  refine ⟨henc, by norm_num, ?_⟩
  unfold PlotHistogram.plot
  show some (PlotBin.encode (.manual (2 ^ 31))) = some (-(2 ^ 31))
  rw [henc]

/-- C8 (amended): in the argument passed to the native histogram call,
`Auto(method)` is encoded as the method's negative sentinel enum value, and
`Manual(n)` as the positive bin count `n` whenever `n` fits in an `i32`
(`n < 2^31`); larger `u32` counts wrap. -/
theorem C8_bin_encoding (self : PlotHistogram) (values : List ℚ)
    (barScale : Option ℚ) (range : Option (ℚ × ℚ)) (method : PlotBinMethod)
    (n : ℕ) (hn : n < 2 ^ 31) :
    (∀ c ∈ self.plot values (.auto method) barScale range,
      c.bins = method.toInt ∧ c.bins < 0) ∧
    (∀ c ∈ self.plot values (.manual n) barScale range,
      c.bins = (n : ℤ)) := by
  constructor
  · intro c hc
    simp only [PlotHistogram.plot, Option.mem_def, Option.some.injEq] at hc
    subst hc
    refine ⟨rfl, ?_⟩
    show PlotBin.encode (.auto method) < 0
    cases method <;> decide
  · intro c hc
    simp only [PlotHistogram.plot, Option.mem_def, Option.some.injEq] at hc
    subst hc
    show PlotBin.encode (.manual n) = (n : ℤ)
    unfold PlotBin.encode
    exact i32ofNat_eq_of_lt hn

/-- C8 witness: `Auto(Sturges)` reaches the native call as the negative
sentinel `-2` and `Manual(10)` as the positive count `10`. -/
theorem C8_witness :
    (10 : ℕ) < 2 ^ 31 ∧
    ((∀ c ∈ (PlotHistogram.mk "h" 0).plot [0] (.auto .sturges) none none,
        c.bins = PlotBinMethod.sturges.toInt ∧ c.bins < 0) ∧
     (∀ c ∈ (PlotHistogram.mk "h" 0).plot [0] (.manual 10) none none,
        c.bins = ((10 : ℕ) : ℤ))) ∧
    ((PlotHistogram.mk "h" 0).plot [0] (.auto .sturges) none none).map
      HistogramDrawCall.bins = some (-2) ∧
    ((PlotHistogram.mk "h" 0).plot [0] (.manual 10) none none).map
      HistogramDrawCall.bins = some 10 :=
  ⟨by norm_num,
    C8_bin_encoding (PlotHistogram.mk "h" 0) [0] none none .sturges 10
      (by norm_num),
    by decide, by decide⟩

/-- C9: for every callback string and every native buffer capacity of at
least one byte (and within the `c_int` range), the format-callback bridge
writes the truncated string prefix of at most `size - 1` bytes followed by a
null terminator — never more than `size` bytes in total — and returns
`min(size - 1, string length) + 1`, which never exceeds `size`. -/
theorem C9_callback_truncates (s : List ℕ) (size : ℤ) (h1 : 1 ≤ size)
    (h2 : size ≤ 2 ^ 31 - 1) :
    ∃ written ret, axis_format_callback s size = some (written, ret) ∧
      written = s.take (min (size - 1).toNat s.length) ++ [0] ∧
      (written.length : ℤ) ≤ size ∧
      ret = min (size - 1) (s.length : ℤ) + 1 ∧ ret ≤ size := by
  have hne : size ≠ -(2 ^ 31) := by omega
  have hmod : (size - 1) % 2 ^ 64 = size - 1 :=
    Int.emod_eq_of_lt (by omega) (by omega)
  simp only [axis_format_callback, usizeOfInt, if_neg hne, hmod]
  refine ⟨s.take (min (size - 1).toNat s.length) ++ [0],
    ((min (size - 1).toNat s.length : ℕ) : ℤ) + 1, rfl, rfl, ?_, ?_, ?_⟩
  · rw [List.length_append, List.length_take, List.length_cons,
      List.length_nil]
    omega
  · omega
  · omega

/-- C9 witness: the bytes of `"hi!"` with a 3-byte buffer: two bytes plus the
null terminator are written (3 bytes in total, not more than the buffer
size), and the returned value is 3. -/
theorem C9_witness :
    (1 : ℤ) ≤ 3 ∧ (3 : ℤ) ≤ 2 ^ 31 - 1 ∧
    (∃ written ret,
      axis_format_callback [104, 105, 33] 3 = some (written, ret) ∧
      written = [104, 105, 33].take (min ((3 : ℤ) - 1).toNat
        ([104, 105, 33] : List ℕ).length) ++ [0] ∧
      (written.length : ℤ) ≤ 3 ∧
      ret = min ((3 : ℤ) - 1) ((([104, 105, 33] : List ℕ).length : ℕ) : ℤ) + 1 ∧
      ret ≤ 3) ∧
    axis_format_callback [104, 105, 33] 3 = some ([104, 105, 0], 3) :=
  ⟨by norm_num, by norm_num,
    C9_callback_truncates [104, 105, 33] 3 (by norm_num) (by norm_num),
    by decide⟩

/-- C10: calling `PlotHeatmap::plot` with an empty values slice while no
explicit scale range was set panics (the `values[0]` index in the auto-scale
scan is out of bounds) instead of silently doing nothing; the result is the
panic and no native-call record, so the panic occurs before any native
call. -/
theorem C10_heatmap_empty_panics (self : PlotHeatmap) (rows cols : ℕ)
    (colMajor : Bool) (h : self.scale_range = none) :
    self.plot [] rows cols colMajor =
      .error "index out of bounds: the len is 0 but the index is 0" := by
  unfold PlotHeatmap.plot
  rw [h]

/-- C10 witness: a freshly constructed heatmap (auto scale) on an empty
buffer panics. -/
theorem C10_witness :
    (PlotHeatmap.new "h").scale_range = none ∧
    (PlotHeatmap.new "h").plot [] 2 2 false =
      .error "index out of bounds: the len is 0 but the index is 0" :=
  ⟨rfl, C10_heatmap_empty_panics (PlotHeatmap.new "h") 2 2 false rfl⟩

end Implot
